import Mathlib

/-!
Shallow embedding of `src/app.py` (SafePlates): a LangGraph-style recipe
workflow with an allergen check, an interrupt before the human-feedback
node, and a finalization step, driven by the gradio callback
`process_request`.

Modelling conventions:
* Each external `client.chat.completions.create` call is an oracle from the
  prompt string to the returned message content (`Except Unit String`; an
  `error` outcome means the external call failed).
* The Python `State` TypedDict is a structure of `Option` fields: `none`
  models an absent key.  A Python `KeyError` or `IndexError` raised while a
  step runs is an explicit `StepError` value; a step that raises commits
  nothing (the LangGraph checkpoint keeps the values from before the node).
* The LangGraph runtime (`graph.stream`, `MemorySaver` checkpoints,
  `interrupt_before`) is not part of the repository source; its semantics
  for this linear graph are modelled explicitly below (`drive`, `stream`).
-/

namespace SafePlates

/-- Failure of a step or of the driver, at the Python level. -/
inductive StepError where
  | genError : StepError
  | keyError : String → StepError
  | indexError : StepError
  deriving Repr, DecidableEq

/-- The graph state (Python TypedDict `State`, `src/app.py` lines 12-18).
Every key may be absent before it is first written, hence `Option` fields. -/
structure State where
  recipe_request : Option String
  recipe : Option String
  allergenes : Option String
  allergenes_detected : Option Bool
  human_feedback : Option String
  final_recipe : Option String
  deriving Repr, DecidableEq

/-- A state with no keys set (a fresh Python dict). -/
def emptyState : State :=
  { recipe_request := none, recipe := none, allergenes := none,
    allergenes_detected := none, human_feedback := none, final_recipe := none }

instance {ε α : Type} [DecidableEq ε] [DecidableEq α] : DecidableEq (Except ε α) := fun a b =>
  match a, b with
  | Except.error e, Except.error f =>
    if h : e = f then isTrue (by rw [h])
    else isFalse (by intro hc; cases hc; exact h rfl)
  | Except.error _, Except.ok _ => isFalse (by intro hc; cases hc)
  | Except.ok _, Except.error _ => isFalse (by intro hc; cases hc)
  | Except.ok x, Except.ok y =>
    if h : x = y then isTrue (by rw [h])
    else isFalse (by intro hc; cases hc; exact h rfl)

/-- The external chat-completion capability: prompt content to response
content, or failure of the call. -/
def GenOracle : Type := String → Except Unit String

/-- Prompt of the draft-generation call (`src/app.py` line 29). -/
def generatorPrompt (req : String) : String :=
  "Generate a detailed recipe for: " ++ req

/-- Prompt of the allergen-classification call (`src/app.py` line 39). -/
def classifierPrompt (recipe : String) : String :=
  "Analyze this recipe for common allergenes (nuts, dairy, gluten, shellfish, eggs). Only respond with \x27ALLERGENES FOUND\x27 plus the allergenes detected or \x27NO ALLERGENES\x27: " ++ recipe

/-- Prompt of the revision call in the finalizer (`src/app.py` line 58). -/
def finalizerPrompt (recipe feedback : String) : String :=
  "Modify this recipe according to dietary restrictions: " ++ recipe ++ "\nRestrictions: " ++ feedback

/-- The literal marker the classifier response is split on (line 42). -/
def marker : String := "ALLERGENES FOUND"

/-- Does `pat` start `l`? -/
def isPrefixList : List Char → List Char → Bool
  | [], _ => true
  | _ :: _, [] => false
  | p :: ps, c :: cs => p == c && isPrefixList ps cs

/-- Left-to-right split of `l` on the non-empty pattern `pat`, accumulating
the current segment in `cur` (reversed); `fuel` bounds the scan and is
instantiated with the length of `l`, which always suffices. -/
def splitAux (pat : List Char) : Nat → List Char → List Char → List (List Char)
  | _, [], cur => [cur.reverse]
  | 0, l, cur => [cur.reverse ++ l]
  | Nat.succ fuel, c :: cs, cur =>
    if isPrefixList pat (c :: cs) then
      cur.reverse :: splitAux pat fuel ((c :: cs).drop pat.length) []
    else
      splitAux pat fuel cs (c :: cur)

/-- Python `s.split(pat)` for a non-empty separator: the list of segments
between non-overlapping leftmost occurrences of `pat`. -/
def pySplit (s pat : String) : List String :=
  (splitAux pat.toList s.toList.length s.toList []).map String.mk

/-- Python substring test `pat in s` for a non-empty `pat`: the pattern
occurs iff splitting on it produces more than one part. -/
def str_in (pat s : String) : Bool := (pySplit s pat).length != 1

/-- The whitespace characters removed by Python `str.strip()` (the ASCII
ones, which cover the classifier responses modelled here). -/
def isPySpace (c : Char) : Bool :=
  c == ' ' || c == '\t' || c == '\n' || c == '\r' || c == '\x0b' || c == '\x0c'

/-- Python `s.strip()`: remove leading and trailing whitespace. -/
def pyStrip (s : String) : String :=
  String.mk (((s.toList.dropWhile isPySpace).reverse.dropWhile isPySpace).reverse)

/-- Python `s[n:]`: drop the first `n` characters (total when `s` is
shorter). -/
def pyDrop (s : String) (n : Nat) : String :=
  String.mk (s.toList.drop n)

/-- `recipe_generator` (`src/app.py` lines 23-44).  Reads
`state["recipe_request"]`, calls the capability for a draft, then calls it
again to classify the draft.  Line 42 takes element `[1]` of
`content.split("ALLERGENES FOUND")`, a Python `IndexError` when the marker
is absent; line 43 sets `allergenes_detected` to the substring test.  The
in-place write of `recipe` (line 32) is not checkpointed on failure, so an
erroring run commits nothing. -/
def recipe_generator (gen : GenOracle) (state : State) : Except StepError State :=
  match state.recipe_request with
  | none => Except.error (StepError.keyError "recipe_request")
  | some req =>
    match gen (generatorPrompt req) with
    | Except.error _ => Except.error StepError.genError
    | Except.ok draft =>
      match gen (classifierPrompt draft) with
      | Except.error _ => Except.error StepError.genError
      | Except.ok content =>
        match (pySplit content marker).get? 1 with
        | none => Except.error StepError.indexError
        | some second =>
          Except.ok { state with recipe := some draft,
                                 allergenes := some (pyStrip second),
                                 allergenes_detected := some (str_in marker content) }

/-- `human_feedback_handler` (`src/app.py` lines 46-49): sets
`allergenes_detected` to `False` and returns the state. -/
def human_feedback_handler (state : State) : State :=
  { state with allergenes_detected := some false }

/-- `recipe_finalizer` (`src/app.py` lines 51-64): when `human_feedback` is
present and non-empty it calls the capability to revise the recipe,
otherwise it copies `recipe` into `final_recipe`.  Both branches read
`state["recipe"]` (lines 58 and 63), a `KeyError` when absent. -/
def recipe_finalizer (gen : GenOracle) (state : State) : Except StepError State :=
  if state.human_feedback.getD "" != "" then
    match state.recipe with
    | none => Except.error (StepError.keyError "recipe")
    | some r =>
      match state.human_feedback with
      | none => Except.error (StepError.keyError "human_feedback")
      | some fb =>
        match gen (finalizerPrompt r fb) with
        | Except.error _ => Except.error StepError.genError
        | Except.ok revised => Except.ok { state with final_recipe := some revised }
  else
    match state.recipe with
    | none => Except.error (StepError.keyError "recipe")
    | some r => Except.ok { state with final_recipe := some r }

/-- `allergenes_check_condition` (`src/app.py` lines 66-71): reads
`state["allergenes_detected"]` (`KeyError` when absent) and returns the
edge label. -/
def allergenes_check_condition (state : State) : Except StepError String :=
  match state.allergenes_detected with
  | none => Except.error (StepError.keyError "allergenes_detected")
  | some true => Except.ok "human_feedback_handler"
  | some false => Except.ok "recipe_finalizer"

/-- Nodes of the compiled graph (`src/app.py` lines 74-89). -/
inductive GNode where
  | recipe_generator : GNode
  | human_feedback_handler : GNode
  | recipe_finalizer : GNode
  deriving Repr, DecidableEq

/-- The label-to-node mapping of the conditional edge (lines 83-86). -/
def cond_mapping (lbl : String) : Option GNode :=
  if lbl = "human_feedback_handler" then some GNode.human_feedback_handler
  else if lbl = "recipe_finalizer" then some GNode.recipe_finalizer
  else none

/-- Run one node of the graph on a state. -/
def runNode (gen : GenOracle) : GNode → State → Except StepError State
  | GNode.recipe_generator, s => recipe_generator gen s
  | GNode.human_feedback_handler, s => Except.ok (human_feedback_handler s)
  | GNode.recipe_finalizer, s => recipe_finalizer gen s

/-- Successor of a node on the updated state (`src/app.py` lines 79-89):
the conditional edge out of the generator, the unconditional edge from the
feedback handler to the finalizer, and END after the finalizer. -/
def nextNode (s : State) : GNode → Except StepError (Option GNode)
  | GNode.recipe_generator =>
    match allergenes_check_condition s with
    | Except.error e => Except.error e
    | Except.ok lbl =>
      match cond_mapping lbl with
      | some n => Except.ok (some n)
      | none => Except.error (StepError.keyError lbl)
  | GNode.human_feedback_handler => Except.ok (some GNode.recipe_finalizer)
  | GNode.recipe_finalizer => Except.ok none

/-- The single node execution pauses before (`interrupt_before`, line 101). -/
def interruptBefore (n : GNode) : Bool := n == GNode.human_feedback_handler

/-- Outcome of one `graph.stream` call: the node events produced (node and
its output state, in execution order), the last persisted checkpoint values,
the pending tasks (`[n]` when paused before or failed at `n`, `[]` when the
run finished), and the error that aborted the stream, if any. -/
structure EngineOutcome where
  events : List (GNode × State)
  final : State
  pending : List GNode
  error : Option StepError
  deriving Repr, DecidableEq

/-- Modelled from the spec: the LangGraph execution loop of the compiled
graph (the runtime itself is not repository source).  Runs nodes in
sequence from `n`; persists after every successful node; stops before a node
in `interruptBefore`; a node failure aborts without advancing the
checkpoint, leaving the failed node pending. -/
def drive (gen : GenOracle) : Nat → State → GNode → List (GNode × State) → EngineOutcome
  | 0, s, n, evs => { events := evs, final := s, pending := [n], error := none }
  | Nat.succ fuel, s, n, evs =>
    match runNode gen n s with
    | Except.error e => { events := evs, final := s, pending := [n], error := some e }
    | Except.ok s1 =>
      match nextNode s1 n with
      | Except.error e => { events := evs ++ [(n, s1)], final := s1, pending := [], error := some e }
      | Except.ok none => { events := evs ++ [(n, s1)], final := s1, pending := [], error := none }
      | Except.ok (some m) =>
        if interruptBefore m then
          { events := evs ++ [(n, s1)], final := s1, pending := [m], error := none }
        else
          drive gen fuel s1 m (evs ++ [(n, s1)])

/-- Keep `upd` when it is set, else fall back to `base` (LangGraph
last-value channel update for one key). -/
def orElseOpt {α : Type} (upd base : Option α) : Option α :=
  match upd with
  | some v => some v
  | none => base

/-- Channel-wise merge of an update dict into checkpoint values: keys
present in the update overwrite. -/
def mergeState (base upd : State) : State :=
  { recipe_request := orElseOpt upd.recipe_request base.recipe_request,
    recipe := orElseOpt upd.recipe base.recipe,
    allergenes := orElseOpt upd.allergenes base.allergenes,
    allergenes_detected := orElseOpt upd.allergenes_detected base.allergenes_detected,
    human_feedback := orElseOpt upd.human_feedback base.human_feedback,
    final_recipe := orElseOpt upd.final_recipe base.final_recipe }

/-- The per-thread checkpoint held by the `MemorySaver`: last persisted
channel values and the pending tasks. -/
structure Checkpoint where
  values : State
  pending : List GNode
  deriving Repr, DecidableEq

/-- The checkpoint of a thread that has never run. -/
def emptyCheckpoint : Checkpoint :=
  { values := emptyState, pending := [] }

/-- Modelled from the spec: `graph.update_state` (`src/app.py` line 143)
merges the supplied values into the checkpoint channels; pending tasks are
unchanged. -/
def update_state (cp : Checkpoint) (values : State) : Checkpoint :=
  { cp with values := mergeState cp.values values }

/-- Modelled from the spec: `graph.stream(input, config)` (`src/app.py`
line 148).  With a non-`None` input the graph starts a fresh run from the
entry node on the input merged into the channels; with `None` it resumes at
the pending (interrupted or failed) node, or produces nothing when the
thread has finished. -/
def stream (gen : GenOracle) (input : Option State) (cp : Checkpoint) : EngineOutcome :=
  match input with
  | some s => drive gen 4 (mergeState cp.values s) GNode.recipe_generator []
  | none =>
    match cp.pending with
    | [] => { events := [], final := cp.values, pending := [], error := none }
    | n :: _ => drive gen 4 cp.values n []

/-- The waiting-for-feedback chat message (`src/app.py` line 153); note the
`[2:]` slice applied to the stored `allergenes` text. -/
def waiting_message (shown : String) : String :=
  "Are you allergic to any of the following ingredients:\n" ++ shown ++ "\nIf so, please specify which ones."

/-- The final-recipe chat message (`src/app.py` line 157). -/
def final_message (r : String) : String :=
  "Here\x27s your final recipe:\n\n" ++ r

/-- Chat messages appended for one stream event (`src/app.py` lines
150-157).  A generator event shows either the feedback question (with the
`allergenes` text truncated by `[2:]`) or the recipe; a finalizer event
shows the final recipe; a feedback-handler event appends nothing.  The keys
read here are always present in the respective node output. -/
def event_message : GNode × State → List (Option String × Option String)
  | (GNode.recipe_generator, s) =>
    if s.allergenes_detected.getD false then
      [(none, some (waiting_message (pyDrop (s.allergenes.getD "") 2)))]
    else
      [(none, some (s.recipe.getD ""))]
  | (GNode.human_feedback_handler, _) => []
  | (GNode.recipe_finalizer, s) =>
    [(none, some (final_message (s.final_recipe.getD "")))]

/-- Result of one `process_request` call: the chat history and driver state
as last yielded, the thread checkpoint after the call, the node events of
the embedded stream, and the error that aborted the call, if any. -/
structure SubmitResult where
  history : List (Option String × Option String)
  driver_state : State
  checkpoint : Checkpoint
  events : List (GNode × State)
  error : Option StepError
  deriving Repr, DecidableEq

/-- The tail of `process_request` after its initial-request/feedback
branch (`src/app.py` lines 145-158): stream the graph with `None` when
`human_feedback` is present in the driver state, else with the driver state
as input; append one chat message per displayed event; the driver state
ends as the last `graph.get_state` values, or unchanged when no event was
produced. -/
def process_request_core (gen : GenOracle) (state1 : State)
    (history1 : List (Option String × Option String))
    (cp1 : Checkpoint) : SubmitResult :=
  let input : Option State :=
    if state1.human_feedback.isSome then none else some state1
  let out := stream gen input cp1
  { history := history1 ++ (out.events.map event_message).flatten,
    driver_state := if out.events.isEmpty then state1 else out.final,
    checkpoint := { values := out.final, pending := out.pending },
    events := out.events,
    error := out.error }

/-- `process_request` (`src/app.py` lines 132-158), the submit operation.
`state` is the gradio session state (`none` before the first call).  A
fresh call seeds the state with the request; a call on a state with
`allergenes_detected` truthy records the message as `human_feedback` and
pushes it into the checkpoint (line 143); any other existing state falls
through unchanged. -/
def process_request (gen : GenOracle) (message : String)
    (history : List (Option String × Option String))
    (state : Option State) (cp : Checkpoint) : SubmitResult :=
  match state with
  | none =>
    process_request_core gen
      { emptyState with recipe_request := some message }
      [(some message, some "Generating recipe...")] cp
  | some st =>
    if st.allergenes_detected.getD false then
      process_request_core gen { st with human_feedback := some message }
        (history ++ [(some message, some "Updating recipe...")])
        (update_state cp { st with human_feedback := some message })
    else
      process_request_core gen st history cp

set_option maxRecDepth 40000

/-! Helper lemmas shared by the claim theorems. -/

lemma length_ne_one_of_get_one {l : List String} {a : String}
    (h : l.get? 1 = some a) : l.length ≠ 1 := by
  match l with
  | [] => simp at h
  | [x] => simp at h
  | x :: y :: rest => simp only [List.length_cons]; omega

/-- A non-failing run of the generator always reports allergens: the
`split(...)[1]` of line 42 only succeeds when the marker occurs, and then
line 43 computes `True`. -/
lemma generator_ok_detected (gen : GenOracle) (s s1 : State)
    (h : recipe_generator gen s = Except.ok s1) :
    s1.allergenes_detected = some true := by
  unfold recipe_generator at h
  cases hreq : s.recipe_request with
  | none => simp only [hreq] at h; exact Except.noConfusion h
  | some req =>
    simp only [hreq] at h
    cases hg : gen (generatorPrompt req) with
    | error u => simp only [hg] at h; exact Except.noConfusion h
    | ok draft =>
      simp only [hg] at h
      cases hc : gen (classifierPrompt draft) with
      | error u => simp only [hc] at h; exact Except.noConfusion h
      | ok content =>
        simp only [hc] at h
        cases hget : (pySplit content marker).get? 1 with
        | none => simp only [hget] at h; exact Except.noConfusion h
        | some second =>
          simp only [hget] at h
          have hne : (pySplit content marker).length ≠ 1 :=
            length_ne_one_of_get_one hget
          have hb : str_in marker content = true := by
            unfold str_in
            exact bne_iff_ne.mpr hne
          simp only [Except.ok.injEq] at h
          rw [← h]
          show some (str_in marker content) = some true
          rw [hb]

lemma orElseOpt_none {α : Type} (u : Option α) : orElseOpt u none = u := by
  cases u <;> rfl

lemma mergeState_empty (u : State) : mergeState emptyState u = u := by
  cases u
  simp [mergeState, emptyState, orElseOpt_none]

lemma drive_succ (gen : GenOracle) (fuel : Nat) (s : State) (n : GNode)
    (evs : List (GNode × State)) :
    drive gen (fuel + 1) s n evs =
      match runNode gen n s with
      | Except.error e => { events := evs, final := s, pending := [n], error := some e }
      | Except.ok s1 =>
        match nextNode s1 n with
        | Except.error e =>
          { events := evs ++ [(n, s1)], final := s1, pending := [], error := some e }
        | Except.ok none =>
          { events := evs ++ [(n, s1)], final := s1, pending := [], error := none }
        | Except.ok (some m) =>
          if interruptBefore m then
            { events := evs ++ [(n, s1)], final := s1, pending := [m], error := none }
          else drive gen fuel s1 m (evs ++ [(n, s1)]) := rfl

lemma stream_input (gen : GenOracle) (s : State) (cp : Checkpoint) :
    stream gen (some s) cp =
      drive gen 4 (mergeState cp.values s) GNode.recipe_generator [] := rfl

lemma stream_resume (gen : GenOracle) (cp : Checkpoint) (n : GNode) (rest : List GNode)
    (h : cp.pending = n :: rest) :
    stream gen none cp = drive gen 4 cp.values n [] := by
  unfold stream; rw [h]

lemma stream_done (gen : GenOracle) (cp : Checkpoint) (h : cp.pending = []) :
    stream gen none cp =
      { events := [], final := cp.values, pending := [], error := none } := by
  unfold stream; rw [h]

/-! Concrete fixtures: oracles and states used to instantiate the claims. -/

/-- Oracle of scenario A: the classifier reports no concerns. -/
def oracleNoAllergens : GenOracle := fun p =>
  if p = generatorPrompt "lemon cake" then Except.ok "LC draft"
  else Except.ok "NO ALLERGENES"

/-- Oracle of scenario B: the classifier flags dairy and eggs, and the
revision call answers with a revised recipe. -/
def oracleFlag : GenOracle := fun p =>
  if p = generatorPrompt "cookies" then Except.ok "CK draft"
  else if p = classifierPrompt "CK draft" then Except.ok "ALLERGENES FOUND dairy, eggs"
  else Except.ok "revised CK"

/-- Oracle on which every external call fails. -/
def oracleFail : GenOracle := fun _ => Except.error ()

/-- Oracle whose classifier response lacks the marker though both calls
succeed. -/
def oracleNoMarker : GenOracle := fun p =>
  if p = generatorPrompt "soup" then Except.ok "Soup draft"
  else Except.ok "NO ALLERGENES"

/-- Oracle for the fall-through re-run scenario. -/
def oracleSoup : GenOracle := fun p =>
  if p = generatorPrompt "soup" then Except.ok "Soup draft"
  else Except.ok "ALLERGENES FOUND nuts"

/-- Driver state right after scenario B's first message was recorded. -/
def stateFlagReq : State := { emptyState with recipe_request := some "cookies" }

/-- Output of the generator in scenario B: allergens flagged. -/
def stateFlagged : State :=
  { recipe_request := some "cookies", recipe := some "CK draft",
    allergenes := some "dairy, eggs", allergenes_detected := some true,
    human_feedback := none, final_recipe := none }

/-- Scenario B state once feedback was recorded and the handler ran. -/
def stateFed : State :=
  { recipe_request := some "cookies", recipe := some "CK draft",
    allergenes := some "dairy, eggs", allergenes_detected := some false,
    human_feedback := some "no dairy", final_recipe := none }

/-- Scenario B state after the finalizer ran: the completed session. -/
def stateFinal : State := { stateFed with final_recipe := some "revised CK" }

/-- Driver state left behind by a submit whose generator failed. -/
def stateLeftover : State := { emptyState with recipe_request := some "soup" }

/-- Checkpoint left behind by a submit whose generator failed. -/
def cpLeftover : Checkpoint :=
  { values := stateLeftover, pending := [GNode.recipe_generator] }

/-- Checkpoint of a session paused before the feedback handler. -/
def cpPaused : Checkpoint :=
  { values := stateFlagged, pending := [GNode.human_feedback_handler] }

/-- Checkpoint of a completed session. -/
def cpDone : Checkpoint := { values := stateFinal, pending := [] }

/-! The claims. -/

/-- C1: the spec says the generate step sets `needsReview` true iff the
classifier flagged a concern, and that a session whose classifier reports
no concerns completes directly with the draft as result.  The code instead
raises `IndexError` on line 42 (`split("ALLERGENES FOUND")[1]`) whenever
the classifier response lacks the marker, e.g. the prompted alternative
"NO ALLERGENES": the submit call aborts, commits nothing, and never reaches
the finalizer.  This theorem evaluates the code at that failing input
(scenario A). -/
theorem claim_C1 :
    process_request oracleNoAllergens "lemon cake" [] none emptyCheckpoint =
      { history := [(some "lemon cake", some "Generating recipe...")],
        driver_state := { emptyState with recipe_request := some "lemon cake" },
        checkpoint := { values := { emptyState with recipe_request := some "lemon cake" },
                        pending := [GNode.recipe_generator] },
        events := [],
        error := some StepError.indexError } := by decide

/-- C2: on every input state and every pair of external responses, if
`recipe_generator` returns without raising then `allergenes_detected` is
`True`: extracting `flaggedItems` requires the literal marker, so the
no-concern branch out of generate is unreachable on a non-failing run. -/
theorem claim_C2 (gen : GenOracle) (s s1 : State)
    (h : recipe_generator gen s = Except.ok s1) :
    s1.allergenes_detected = some true :=
  generator_ok_detected gen s s1 h

theorem claim_C2_witness : stateFlagged.allergenes_detected = some true :=
  claim_C2 oracleFlag stateFlagReq stateFlagged (by decide)

/-- C3 (amended): when either external call of the generate step fails, the
step fails with `GenerationError` and commits nothing — the checkpoint
keeps the pre-step values with the generator still pending, so a retry
re-attempts the same node.  (The original claim's "generate fails only in
this way" is refuted by `claim_C3_counterexample`.) -/
theorem claim_C3 (gen : GenOracle) (s : State) (req : String)
    (hreq : s.recipe_request = some req)
    (hfail : gen (generatorPrompt req) = Except.error () ∨
      ∃ draft, gen (generatorPrompt req) = Except.ok draft ∧
        gen (classifierPrompt draft) = Except.error ()) :
    recipe_generator gen s = Except.error StepError.genError ∧
    drive gen 4 s GNode.recipe_generator [] =
      { events := [], final := s, pending := [GNode.recipe_generator],
        error := some StepError.genError } := by
  have hgen : recipe_generator gen s = Except.error StepError.genError := by
    unfold recipe_generator
    rcases hfail with h1 | ⟨draft, h1, h2⟩
    · simp only [hreq, h1]
    · simp only [hreq, h1, h2]
  refine ⟨hgen, ?_⟩
  have h4 : (4 : Nat) = 3 + 1 := rfl
  rw [h4, drive_succ]
  simp only [runNode, hgen]

theorem claim_C3_witness :
    recipe_generator oracleFail { emptyState with recipe_request := some "stew" } =
      Except.error StepError.genError ∧
    drive oracleFail 4 { emptyState with recipe_request := some "stew" }
      GNode.recipe_generator [] =
      { events := [], final := { emptyState with recipe_request := some "stew" },
        pending := [GNode.recipe_generator], error := some StepError.genError } :=
  claim_C3 oracleFail { emptyState with recipe_request := some "stew" } "stew"
    (by decide) (Or.inl (by decide))

/-- C3 counterexample: the generate step can fail although both external
calls succeeded — with `IndexError`, not `GenerationError` — when the
classifier response lacks the marker.  So "generate fails only with a
GenerationError" is false on the code. -/
theorem claim_C3_counterexample :
    oracleNoMarker (generatorPrompt "soup") = Except.ok "Soup draft" ∧
    oracleNoMarker (classifierPrompt "Soup draft") = Except.ok "NO ALLERGENES" ∧
    recipe_generator oracleNoMarker { emptyState with recipe_request := some "soup" } =
      Except.error StepError.indexError ∧
    StepError.indexError ≠ StepError.genError := by decide

/-! Driver-evaluation helpers. -/

/-- The record built by `process_request_core` from the stream outcome. -/
def assemble (state1 : State) (history1 : List (Option String × Option String))
    (out : EngineOutcome) : SubmitResult :=
  { history := history1 ++ (out.events.map event_message).flatten,
    driver_state := if out.events.isEmpty then state1 else out.final,
    checkpoint := { values := out.final, pending := out.pending },
    events := out.events,
    error := out.error }

lemma core_eval_resume (gen : GenOracle) (st1 : State)
    (hist1 : List (Option String × Option String)) (cp1 : Checkpoint)
    (hfb : st1.human_feedback.isSome = true) :
    process_request_core gen st1 hist1 cp1 =
      assemble st1 hist1 (stream gen none cp1) := by
  simp [process_request_core, assemble, hfb]

lemma core_eval_input (gen : GenOracle) (st1 : State)
    (hist1 : List (Option String × Option String)) (cp1 : Checkpoint)
    (hfb : st1.human_feedback.isSome = false) :
    process_request_core gen st1 hist1 cp1 =
      assemble st1 hist1 (stream gen (some st1) cp1) := by
  simp [process_request_core, assemble, hfb]

/-- A submit on an existing session whose `allergenes_detected` is falsy
takes neither driver branch: it ignores the message and streams directly. -/
lemma submit_fallthrough (gen : GenOracle) (msg : String)
    (hist : List (Option String × Option String)) (st : State) (cp : Checkpoint)
    (hdet : st.allergenes_detected.getD false = false) :
    process_request gen msg hist (some st) cp =
      process_request_core gen st hist cp := by
  simp [process_request, hdet]

/-- A submit on a waiting session records the message as feedback, appends
the updating message, and pushes the feedback into the checkpoint. -/
lemma submit_resume (gen : GenOracle) (msg : String)
    (hist : List (Option String × Option String)) (st : State) (cp : Checkpoint)
    (hdet : st.allergenes_detected.getD false = true) :
    process_request gen msg hist (some st) cp =
      process_request_core gen { st with human_feedback := some msg }
        (hist ++ [(some msg, some "Updating recipe...")])
        (update_state cp { st with human_feedback := some msg }) := by
  simp [process_request, hdet]

/-- Resumed execution from the feedback handler: the handler always
succeeds, control passes to the finalizer unconditionally, and the run ends
(or aborts in the finalizer). -/
lemma drive_from_handler (gen : GenOracle) (v : State) :
    drive gen 4 v GNode.human_feedback_handler [] =
      match recipe_finalizer gen (human_feedback_handler v) with
      | Except.error e =>
        { events := [(GNode.human_feedback_handler, human_feedback_handler v)],
          final := human_feedback_handler v,
          pending := [GNode.recipe_finalizer], error := some e }
      | Except.ok v2 =>
        { events := [(GNode.human_feedback_handler, human_feedback_handler v),
                     (GNode.recipe_finalizer, v2)],
          final := v2, pending := [], error := none } := by
  have h1 : drive gen 4 v GNode.human_feedback_handler [] =
      drive gen 3 (human_feedback_handler v) GNode.recipe_finalizer
        [(GNode.human_feedback_handler, human_feedback_handler v)] := rfl
  rw [h1, show (3 : Nat) = 2 + 1 from rfl, drive_succ]
  cases hfin : recipe_finalizer gen (human_feedback_handler v) with
  | error e => simp only [runNode, hfin]
  | ok v2 => simp [runNode, hfin, nextNode]

/-! The claims (continued). -/

/-- C4 (amended): `needsReview` (`allergenes_detected`) is written by the
generate step, but the awaitFeedback node does not leave it unchanged: the
handler resets it to `False` (it doubles as the session's awaiting flag).
The finalizer never modifies it.  (The original "the pass-through leaves
needsReview unchanged" is refuted by `claim_C4_counterexample`.) -/
theorem claim_C4 (gen : GenOracle) (s s1 : State)
    (h : recipe_finalizer gen s = Except.ok s1) :
    (human_feedback_handler s).allergenes_detected = some false ∧
    s1.allergenes_detected = s.allergenes_detected := by
  refine ⟨rfl, ?_⟩
  unfold recipe_finalizer at h
  by_cases hfb : (s.human_feedback.getD "" != "") = true
  · rw [if_pos hfb] at h
    cases hr : s.recipe with
    | none => simp only [hr] at h; exact Except.noConfusion h
    | some r =>
      simp only [hr] at h
      cases hf : s.human_feedback with
      | none => simp only [hf] at h; exact Except.noConfusion h
      | some fb =>
        simp only [hf] at h
        cases hg : gen (finalizerPrompt r fb) with
        | error u => simp only [hg] at h; exact Except.noConfusion h
        | ok revised =>
          simp only [hg, Except.ok.injEq] at h
          rw [← h]
  · rw [if_neg hfb] at h
    cases hr : s.recipe with
    | none => simp only [hr] at h; exact Except.noConfusion h
    | some r =>
      simp only [hr, Except.ok.injEq] at h
      rw [← h]

theorem claim_C4_witness :
    (human_feedback_handler stateFed).allergenes_detected = some false ∧
    stateFinal.allergenes_detected = stateFed.allergenes_detected :=
  claim_C4 oracleFlag stateFed stateFinal (by decide)

/-- C4 counterexample: on the (always reached) state where the generator
flagged allergens, the pass-through feedback handler changes
`allergenes_detected` from `True` to `False`, so `needsReview` is not
written exactly once. -/
theorem claim_C4_counterexample :
    stateFlagged.allergenes_detected = some true ∧
    (human_feedback_handler stateFlagged).allergenes_detected = some false := by
  decide

/-- C5 (amended): the code has no `UnexpectedInputError`: a submit on an
existing session whose `allergenes_detected` flag is falsy raises no
protocol error — the driver ignores the message and falls through to
streaming the graph (which re-runs from the entry node when no
`human_feedback` was recorded, and produces nothing when the thread has
finished).  (The original claim is refuted by `claim_C5_counterexample`.) -/
theorem claim_C5 (gen : GenOracle) (msg : String)
    (hist : List (Option String × Option String)) (st : State) (cp : Checkpoint)
    (hdet : st.allergenes_detected.getD false = false) :
    process_request gen msg hist (some st) cp =
      process_request_core gen st hist cp :=
  submit_fallthrough gen msg hist st cp hdet

theorem claim_C5_witness :
    process_request oracleSoup "soup" [] (some stateLeftover) cpLeftover =
      process_request_core oracleSoup stateLeftover [] cpLeftover :=
  claim_C5 oracleSoup "soup" [] stateLeftover cpLeftover (by decide)

/-- C5 counterexample: a submit call on a session with an existing
checkpoint and a falsy awaiting flag (the state left behind after a failed
first attempt) yields no error of any kind and executes a node (the
generator runs and the session pauses), contradicting "returns an
UnexpectedInputError protocol error and executes no node". -/
theorem claim_C5_counterexample :
    (process_request oracleSoup "soup" [] (some stateLeftover) cpLeftover).error = none ∧
    (process_request oracleSoup "soup" [] (some stateLeftover) cpLeftover).events ≠ [] := by
  decide

/-- C6: a submit on a completed session (terminal node ran: no pending
task, feedback recorded, awaiting flag cleared) is a no-op: it returns the
stored state — including the stored `final_recipe` — unchanged, streams no
node, and its outcome is independent of the external capability (no
external call can influence it). -/
theorem claim_C6 (gen gen2 : GenOracle) (msg : String)
    (hist : List (Option String × Option String)) (st : State) (cp : Checkpoint)
    (hfb : st.human_feedback.isSome = true)
    (hdet : st.allergenes_detected.getD false = false)
    (hdone : cp.pending = []) :
    process_request gen msg hist (some st) cp =
      { history := hist, driver_state := st,
        checkpoint := { values := cp.values, pending := [] },
        events := [], error := none } ∧
    (process_request gen msg hist (some st) cp).driver_state.final_recipe =
      st.final_recipe ∧
    process_request gen msg hist (some st) cp =
      process_request gen2 msg hist (some st) cp := by
  have key : ∀ g : GenOracle, process_request g msg hist (some st) cp =
      { history := hist, driver_state := st,
        checkpoint := { values := cp.values, pending := [] },
        events := [], error := none } := by
    intro g
    rw [submit_fallthrough g msg hist st cp hdet,
      core_eval_resume g st hist cp hfb, stream_done g cp hdone]
    simp [assemble]
  exact ⟨key gen, by rw [key gen], (key gen).trans (key gen2).symm⟩

theorem claim_C6_witness :
    (process_request oracleFlag "anything" [] (some stateFinal) cpDone =
      { history := [], driver_state := stateFinal,
        checkpoint := { values := cpDone.values, pending := [] },
        events := [], error := none }) ∧
    (process_request oracleFlag "anything" [] (some stateFinal) cpDone).driver_state.final_recipe =
      stateFinal.final_recipe ∧
    process_request oracleFlag "anything" [] (some stateFinal) cpDone =
      process_request oracleFail "anything" [] (some stateFinal) cpDone :=
  claim_C6 oracleFlag oracleFail "anything" [] stateFinal cpDone rfl rfl rfl

/-- C7: the finalize step revises the draft exactly when `userFeedback` is
present and non-empty — the revision call receives precisely the stored
draft and the feedback text (via `finalizerPrompt`), and its answer becomes
`final_recipe` — and copies the draft into `final_recipe` unchanged when
feedback is absent or empty. -/
theorem claim_C7 (gen : GenOracle) (s : State) (r : String)
    (hr : s.recipe = some r) :
    (∀ fb, s.human_feedback = some fb → fb ≠ "" →
      recipe_finalizer gen s =
        (match gen (finalizerPrompt r fb) with
         | Except.error _ => Except.error StepError.genError
         | Except.ok revised => Except.ok { s with final_recipe := some revised })) ∧
    ((s.human_feedback = none ∨ s.human_feedback = some "") →
      recipe_finalizer gen s = Except.ok { s with final_recipe := some r }) := by
  constructor
  · intro fb hfb hne
    have hb : (s.human_feedback.getD "" != "") = true := by
      rw [hfb, Option.getD_some]
      exact bne_iff_ne.mpr hne
    unfold recipe_finalizer
    rw [if_pos hb]
    simp only [hr, hfb]
  · intro hcase
    have hb : ¬ ((s.human_feedback.getD "" != "") = true) := by
      rcases hcase with h0 | h0 <;> rw [h0] <;> simp
    unfold recipe_finalizer
    rw [if_neg hb]
    simp only [hr]

theorem claim_C7_witness :
    recipe_finalizer oracleFlag stateFed = Except.ok stateFinal ∧
    recipe_finalizer oracleFlag { stateFed with human_feedback := none } =
      Except.ok { stateFed with human_feedback := none,
                                final_recipe := some "CK draft" } := by
  constructor
  · have h := (claim_C7 oracleFlag stateFed "CK draft" (by decide)).1
      "no dairy" (by decide) (by decide)
    rw [h]; decide
  · have h := (claim_C7 oracleFlag { stateFed with human_feedback := none }
      "CK draft" (by decide)).2 (Or.inl (by decide))
    rw [h]

/-- C8: resuming a paused session (awaiting flag set, feedback handler
pending) with feedback never re-executes the generate node, and on a
non-failing run it executes exactly the feedback handler followed by the
finalizer. -/
theorem claim_C8 (gen : GenOracle) (msg : String)
    (hist : List (Option String × Option String)) (st : State) (cp : Checkpoint)
    (hdet : st.allergenes_detected = some true)
    (hpend : cp.pending = [GNode.human_feedback_handler]) :
    GNode.recipe_generator ∉
      (process_request gen msg hist (some st) cp).events.map Prod.fst ∧
    ((process_request gen msg hist (some st) cp).error = none →
      (process_request gen msg hist (some st) cp).events.map Prod.fst =
        [GNode.human_feedback_handler, GNode.recipe_finalizer]) := by
  have hdet2 : st.allergenes_detected.getD false = true := by rw [hdet]; rfl
  have hst1 : ({ st with human_feedback := some msg } : State).human_feedback.isSome = true := rfl
  have hp1 : (update_state cp { st with human_feedback := some msg }).pending =
      [GNode.human_feedback_handler] := hpend
  have hres : process_request gen msg hist (some st) cp =
      assemble { st with human_feedback := some msg }
        (hist ++ [(some msg, some "Updating recipe...")])
        (drive gen 4 (update_state cp { st with human_feedback := some msg }).values
          GNode.human_feedback_handler []) := by
    rw [submit_resume gen msg hist st cp hdet2,
      core_eval_resume _ _ _ _ hst1,
      stream_resume _ _ _ [] hp1]
  rw [hres, drive_from_handler]
  cases hfin : recipe_finalizer gen
      (human_feedback_handler (update_state cp { st with human_feedback := some msg }).values) with
  | error e =>
    constructor
    · simp [assemble]
    · intro hq; simp [assemble] at hq
  | ok v2 =>
    constructor
    · simp [assemble]
    · intro hq; simp [assemble]

theorem claim_C8_witness :
    GNode.recipe_generator ∉
      (process_request oracleFlag "no dairy" [] (some stateFlagged) cpPaused).events.map Prod.fst ∧
    ((process_request oracleFlag "no dairy" [] (some stateFlagged) cpPaused).error = none →
      (process_request oracleFlag "no dairy" [] (some stateFlagged) cpPaused).events.map Prod.fst =
        [GNode.human_feedback_handler, GNode.recipe_finalizer]) :=
  claim_C8 oracleFlag "no dairy" [] stateFlagged cpPaused rfl rfl

/-- C9 (amended): whenever the generate step of a fresh submit succeeds (it
then always flags, see C2), the call pauses before the feedback handler and
the waiting prompt embeds `flaggedItems` with its first two characters
removed (the `[2:]` slice of line 153) — not `flaggedItems` itself.  (The
original "prompt contains the classifier's detail text" is refuted by
`claim_C9_counterexample`.) -/
theorem claim_C9 (gen : GenOracle) (msg : String) (s1 : State)
    (h : recipe_generator gen { emptyState with recipe_request := some msg } =
      Except.ok s1) :
    process_request gen msg [] none emptyCheckpoint =
      { history := [(some msg, some "Generating recipe..."),
                    (none, some (waiting_message (pyDrop (s1.allergenes.getD "") 2)))],
        driver_state := s1,
        checkpoint := { values := s1, pending := [GNode.human_feedback_handler] },
        events := [(GNode.recipe_generator, s1)],
        error := none } := by
  have hdet := generator_ok_detected gen _ s1 h
  have hfb0 : ({ emptyState with recipe_request := some msg } : State).human_feedback.isSome = false := rfl
  have hstart : process_request gen msg [] none emptyCheckpoint =
      assemble { emptyState with recipe_request := some msg }
        [(some msg, some "Generating recipe...")]
        (stream gen (some { emptyState with recipe_request := some msg }) emptyCheckpoint) := by
    rw [show process_request gen msg [] none emptyCheckpoint =
        process_request_core gen { emptyState with recipe_request := some msg }
          [(some msg, some "Generating recipe...")] emptyCheckpoint from rfl,
      core_eval_input _ _ _ _ hfb0]
  have hdrive : stream gen (some { emptyState with recipe_request := some msg }) emptyCheckpoint =
      { events := [(GNode.recipe_generator, s1)], final := s1,
        pending := [GNode.human_feedback_handler], error := none } := by
    rw [stream_input,
      show mergeState emptyCheckpoint.values { emptyState with recipe_request := some msg } =
        { emptyState with recipe_request := some msg } from mergeState_empty _,
      show (4 : Nat) = 3 + 1 from rfl, drive_succ]
    simp [runNode, h, nextNode, allergenes_check_condition, hdet, cond_mapping,
      interruptBefore]
  rw [hstart, hdrive]
  simp [assemble, event_message, hdet]

theorem claim_C9_witness :
    process_request oracleFlag "cookies" [] none emptyCheckpoint =
      { history := [(some "cookies", some "Generating recipe..."),
                    (none, some (waiting_message (pyDrop (stateFlagged.allergenes.getD "") 2)))],
        driver_state := stateFlagged,
        checkpoint := { values := stateFlagged, pending := [GNode.human_feedback_handler] },
        events := [(GNode.recipe_generator, stateFlagged)],
        error := none } :=
  claim_C9 oracleFlag "cookies" stateFlagged (by decide)

/-- C9 counterexample: in the spec's scenario B the stored `flaggedItems`
text is "dairy, eggs", yet the prompt shown to the user contains only
"iry, eggs" — the substring "dairy, eggs" does not occur anywhere in the
prompt, because line 153 truncates `allergenes[2:]`. -/
theorem claim_C9_counterexample :
    (process_request oracleFlag "cookies" [] none emptyCheckpoint).driver_state.allergenes =
      some "dairy, eggs" ∧
    (process_request oracleFlag "cookies" [] none emptyCheckpoint).checkpoint.pending =
      [GNode.human_feedback_handler] ∧
    (process_request oracleFlag "cookies" [] none emptyCheckpoint).history =
      [(some "cookies", some "Generating recipe..."),
       (none, some (waiting_message "iry, eggs"))] ∧
    str_in "dairy, eggs" (waiting_message "iry, eggs") = false := by
  decide

/-- C10: on every state produced by a successful run of the generate step,
the condition evaluator returns the label of the feedback-handler edge iff
`allergenes_detected` is true, returns the finalizer label otherwise, and
is total — it returns some label mapped by the conditional-edge dictionary
and never fails.  (On such states `allergenes_detected` is always present,
so the `KeyError` branch is unreachable.) -/
theorem claim_C10 (gen : GenOracle) (s0 s : State)
    (h : recipe_generator gen s0 = Except.ok s) :
    (allergenes_check_condition s = Except.ok "human_feedback_handler" ↔
      s.allergenes_detected = some true) ∧
    (allergenes_check_condition s = Except.ok "recipe_finalizer" ↔
      s.allergenes_detected ≠ some true) ∧
    ∃ lbl, allergenes_check_condition s = Except.ok lbl ∧ cond_mapping lbl ≠ none := by
  have hdet := generator_ok_detected gen s0 s h
  have hcond : allergenes_check_condition s = Except.ok "human_feedback_handler" := by
    unfold allergenes_check_condition
    rw [hdet]
  refine ⟨⟨fun _ => hdet, fun _ => hcond⟩, ⟨?_, ?_⟩,
    "human_feedback_handler", hcond, by decide⟩
  · intro hc
    rw [hcond] at hc
    exact absurd hc (by decide)
  · intro hne
    exact absurd hdet hne

theorem claim_C10_witness :
    (allergenes_check_condition stateFlagged = Except.ok "human_feedback_handler" ↔
      stateFlagged.allergenes_detected = some true) ∧
    (allergenes_check_condition stateFlagged = Except.ok "recipe_finalizer" ↔
      stateFlagged.allergenes_detected ≠ some true) ∧
    ∃ lbl, allergenes_check_condition stateFlagged = Except.ok lbl ∧
      cond_mapping lbl ≠ none :=
  claim_C10 oracleFlag stateFlagReq stateFlagged (by decide)

end SafePlates
